import Mathlib

/-!
Shallow embedding of `MultiAccountTrade/engine.py` (class `MainEngine`):
the state cache (ticks, orders, trades, positions, contracts, accounts,
active orders), the taker-order router `_send_taker_order`, the gateway
submission helper `_send_order`, the cancellation entry point
`cancel_active_order`, and the order-event handler `_process_order_event`.

Python dictionaries are modelled as association lists with last-write-wins
upsert; Python floats (prices, volumes) are modelled as rationals; the
gateway objects are modelled by their `send_order` behaviour, a function
from an order request to the returned identifier string.  Log emission via
the event engine is modelled by collecting the message strings.
-/

namespace MultiAccountTrade

/-- Association-list lookup keyed by strings (models Python `dict.get`). -/
def alookup (k : String) : List (String × α) → Option α
  | [] => none
  | (k', v) :: l => if k = k' then some v else alookup k l

/-- Remove every binding of key `k` (helper for last-write-wins upsert). -/
def aerase (k : String) : List (String × α) → List (String × α)
  | [] => []
  | (k', v) :: l => if k' = k then aerase k l else (k', v) :: aerase k l

/-- Last-write-wins insertion (models Python `dict[k] = v`). -/
def aupsert (k : String) (v : α) (l : List (String × α)) : List (String × α) :=
  (k, v) :: aerase k l

/-- Model of `vnpy.trader.constant.Direction` (values as in vnpy). -/
inductive Direction
  | LONG
  | SHORT
  deriving DecidableEq, Repr

/-- The `.value` string of a `Direction` member, as in vnpy. -/
def Direction.value : Direction → String
  | .LONG => "多"
  | .SHORT => "空"

/-- Model of `vnpy.trader.constant.Offset` (members used by the engine). -/
inductive Offset
  | OPEN
  | CLOSE
  | CLOSETODAY
  | CLOSEYESTERDAY
  deriving DecidableEq, Repr

/-- The `.value` string of an `Offset` member, as in vnpy. -/
def Offset.value : Offset → String
  | .OPEN => "开"
  | .CLOSE => "平"
  | .CLOSETODAY => "平今"
  | .CLOSEYESTERDAY => "平昨"

/-- Model of `vnpy.trader.constant.Exchange`: the two position-aging exchanges named
in the source plus representatives of the others. -/
inductive Exchange
  | SHFE
  | INE
  | CFFEX
  | DCE
  | CZCE
  deriving DecidableEq, Repr

/-- The `.value` string of an `Exchange` member. -/
def Exchange.value : Exchange → String
  | .SHFE => "SHFE"
  | .INE => "INE"
  | .CFFEX => "CFFEX"
  | .DCE => "DCE"
  | .CZCE => "CZCE"

/-- Model of `vnpy.trader.constant.OrderType` (only LIMIT is used by the engine). -/
inductive OrderType
  | LIMIT
  deriving DecidableEq, Repr

/-- Model of `vnpy.trader.constant.Status` (vnpy's order statuses). -/
inductive Status
  | SUBMITTING
  | NOTTRADED
  | PARTTRADED
  | ALLTRADED
  | CANCELLED
  | REJECTED
  deriving DecidableEq, Repr

/-- Model of `vnpy.trader.object.TickData`, restricted to the fields the router
reads (`bid_price_1`, `ask_price_1`). -/
structure TickData where
  vt_symbol : String
  bid_price_1 : ℚ
  ask_price_1 : ℚ
  deriving DecidableEq, Repr

/-- Model of `vnpy.trader.object.ContractData`, restricted to the fields the router
reads. -/
structure ContractData where
  symbol : String
  exchange : Exchange
  pricetick : ℚ
  vt_symbol : String
  deriving DecidableEq, Repr

/-- Model of `vnpy.trader.object.PositionData` (fields read by the router). -/
structure PositionData where
  vt_positionid : String
  volume : ℚ
  frozen : ℚ
  yd_volume : ℚ
  deriving DecidableEq, Repr

/-- Model of `vnpy.trader.object.OrderRequest` as constructed by
`MainEngine._send_taker_order`. -/
structure OrderRequest where
  symbol : String
  exchange : Exchange
  price : ℚ
  volume : ℚ
  direction : Direction
  offset : Offset
  type : OrderType
  deriving DecidableEq, Repr

/-- vnpy's `OrderRequest.vt_symbol` property. -/
def OrderRequest.vt_symbol (r : OrderRequest) : String :=
  r.symbol ++ "." ++ r.exchange.value

/-- Model of `vnpy.trader.object.OrderData` (fields read by the engine). -/
structure OrderData where
  gateway_name : String
  symbol : String
  exchange : Exchange
  orderid : String
  direction : Direction
  offset : Offset
  volume : ℚ
  traded : ℚ
  status : Status
  deriving DecidableEq, Repr

/-- vnpy's `OrderData.vt_orderid` property. -/
def OrderData.vt_orderid (o : OrderData) : String :=
  o.gateway_name ++ "." ++ o.orderid

/-- vnpy's `OrderData.vt_symbol` property. -/
def OrderData.vt_symbol (o : OrderData) : String :=
  o.symbol ++ "." ++ o.exchange.value

/-- vnpy's `OrderData.is_active`: status in the active set
SUBMITTING, NOTTRADED, PARTTRADED (equivalently, not in the terminal set
ALLTRADED/filled, CANCELLED, REJECTED). -/
def OrderData.is_active (o : OrderData) : Bool :=
  match o.status with
  | .SUBMITTING => true
  | .NOTTRADED => true
  | .PARTTRADED => true
  | .ALLTRADED => false
  | .CANCELLED => false
  | .REJECTED => false

/-- Model of `vnpy.trader.object.CancelRequest` as built by
`OrderData.create_cancel_request`. -/
structure CancelRequest where
  orderid : String
  symbol : String
  exchange : Exchange
  deriving DecidableEq, Repr

/-- vnpy's `OrderData.create_cancel_request`. -/
def OrderData.create_cancel_request (o : OrderData) : CancelRequest :=
  { orderid := o.orderid, symbol := o.symbol, exchange := o.exchange }

/-- A gateway, modelled by its `send_order` behaviour: the identifier it
returns for a submitted request. -/
def Gateway : Type := OrderRequest → String

/-- The state cache of `MainEngine`: the per-entity registries plus the
gateway registry. -/
structure MarketState where
  ticks : List (String × TickData)
  contracts : List (String × ContractData)
  positions : List (String × PositionData)
  orders : List (String × OrderData)
  active_orders : List (String × OrderData)
  gateways : List (String × Gateway)

/-- Translation of `MainEngine.get_tick` (with `use_df = False`). -/
def get_tick (s : MarketState) (vt_symbol : String) : Option TickData :=
  alookup vt_symbol s.ticks

/-- Translation of `MainEngine.get_contract` (with `use_df = False`). -/
def get_contract (s : MarketState) (vt_symbol : String) : Option ContractData :=
  alookup vt_symbol s.contracts

/-- Translation of `MainEngine.get_position` (with `use_df = False`). -/
def get_position (s : MarketState) (vt_positionid : String) : Option PositionData :=
  alookup vt_positionid s.positions

/-- Translation of `MainEngine.get_gateway`. -/
def get_gateway (s : MarketState) (gateway_name : String) : Option Gateway :=
  alookup gateway_name s.gateways

/-- Translation of `MainEngine.get_active_order` (with `use_df = False`). -/
def get_active_order (s : MarketState) (vt_orderid : String) : Option OrderData :=
  alookup vt_orderid s.active_orders

/-- The "Send order ..." log line emitted by `MainEngine._send_order`. -/
def send_log_msg (vt_orderid : String) (req : OrderRequest) : String :=
  "Send order " ++ vt_orderid ++ " " ++ req.vt_symbol ++ " " ++ toString req.volume
    ++ " " ++ req.direction.value ++ " " ++ req.offset.value

/-- Translation of `MainEngine._send_order`: looks up the gateway; if present, submits and
logs, returning the gateway's identifier; if absent, returns `""` with no
log.  The second component collects the log messages emitted. -/
def send_order (s : MarketState) (req : OrderRequest) (gateway_name : String) :
    String × List String :=
  match get_gateway s gateway_name with
  | some gw => (gw req, [send_log_msg (gw req) req])
  | none => ("", [])

/-- Result of a call to `MainEngine._send_taker_order`: the requests passed
to `_send_order` (in submission order), the returned identifier sequence,
and the log messages emitted. -/
structure TakerResult where
  reqs : List OrderRequest
  vt_orderids : List String
  logs : List String
  deriving DecidableEq, Repr

/-- The final submission loop of `_send_taker_order`: send each request in
order, collecting identifiers and logs. -/
def submit_all (s : MarketState) (reqs : List OrderRequest) (gateway_name : String) :
    TakerResult :=
  { reqs := reqs,
    vt_orderids := reqs.map (fun r => (send_order s r gateway_name).1),
    logs := (reqs.map (fun r => (send_order s r gateway_name).2)).flatten }

/-- The position identifier `_send_taker_order` looks up for a close: the
opposing direction's position on the same gateway and symbol. -/
def position_key (gateway_name vt_symbol : String) (direction : Direction) : String :=
  match direction with
  | .LONG => gateway_name ++ "." ++ vt_symbol ++ "." ++ Direction.value .SHORT
  | .SHORT => gateway_name ++ "." ++ vt_symbol ++ "." ++ Direction.value .LONG

/-- The marketable limit price computed by `_send_taker_order`:
ask + 2 ticks for a long order, bid − 2 ticks for a short order. -/
def taker_price (tick : TickData) (contract : ContractData) : Direction → ℚ
  | .LONG => tick.ask_price_1 + contract.pricetick * 2
  | .SHORT => tick.bid_price_1 - contract.pricetick * 2

/-- Translation of `MainEngine._send_taker_order`.  Faithful translation: missing tick or
contract aborts with `[""]` and a log; a close intent resolves the opposing
position, aborts on a missing position or insufficient available volume;
on SHFE/INE the offset is rewritten per position aging, with the mixed case
appending the close-today leg to `reqs` first (the in-place-modified
close-yesterday request `req` is appended after the branch), so the
close-today leg is submitted first; finally each request is sent via
`_send_order`. -/
def send_taker_order (s : MarketState) (vt_symbol : String) (volume : ℚ)
    (direction : Direction) (offset : Offset) (gateway_name : String) : TakerResult :=
  match get_tick s vt_symbol, get_contract s vt_symbol with
  | some tick, some contract =>
    let price := taker_price tick contract direction
    let req : OrderRequest :=
      { symbol := contract.symbol, exchange := contract.exchange, price := price,
        volume := volume, direction := direction, offset := offset, type := .LIMIT }
    if offset = Offset.CLOSE then
      match get_position s (position_key gateway_name contract.vt_symbol direction) with
      | none =>
        { reqs := [], vt_orderids := [""], logs := ["Position data is none"] }
      | some position =>
        if position.volume - position.frozen < volume then
          { reqs := [], vt_orderids := [""], logs := ["No enough close volume"] }
        else if contract.exchange = Exchange.SHFE ∨ contract.exchange = Exchange.INE then
          if position.yd_volume = 0 then
            submit_all s [{ req with offset := Offset.CLOSETODAY }] gateway_name
          else if position.volume = position.yd_volume then
            submit_all s [{ req with offset := Offset.CLOSEYESTERDAY }] gateway_name
          else
            let req_yd : OrderRequest :=
              { req with volume := position.yd_volume - position.frozen,
                         offset := Offset.CLOSEYESTERDAY }
            let req_td : OrderRequest :=
              { req_yd with volume := volume - req_yd.volume,
                            offset := Offset.CLOSETODAY }
            submit_all s [req_td, req_yd] gateway_name
        else
          submit_all s [req] gateway_name
    else
      submit_all s [req] gateway_name
  | _, _ =>
    { reqs := [], vt_orderids := [""], logs := ["Tick or contract data is none"] }

/-- Translation of `MainEngine.buy`: open long. -/
def buy (s : MarketState) (vt_symbol : String) (volume : ℚ) (gateway_name : String) :
    TakerResult :=
  send_taker_order s vt_symbol volume Direction.LONG Offset.OPEN gateway_name

/-- Translation of `MainEngine.sell`: close long (submit a short close order). -/
def sell (s : MarketState) (vt_symbol : String) (volume : ℚ) (gateway_name : String) :
    TakerResult :=
  send_taker_order s vt_symbol volume Direction.SHORT Offset.CLOSE gateway_name

/-- Translation of `MainEngine.short`: open short. -/
def short (s : MarketState) (vt_symbol : String) (volume : ℚ) (gateway_name : String) :
    TakerResult :=
  send_taker_order s vt_symbol volume Direction.SHORT Offset.OPEN gateway_name

/-- Translation of `MainEngine.cover`: close short (submit a long close order). -/
def cover (s : MarketState) (vt_symbol : String) (volume : ℚ) (gateway_name : String) :
    TakerResult :=
  send_taker_order s vt_symbol volume Direction.LONG Offset.CLOSE gateway_name

/-- Translation of `MainEngine.cancel_active_order`: look the id up in the active-order
index; if present, build a cancel request from the order's own fields and
submit it via the order's gateway (`_cancel_order` is a no-op when the
gateway is unregistered), then log; if absent, do nothing.  Returns the
gateway cancel calls issued (gateway name, request) and the log messages. -/
def cancel_active_order (s : MarketState) (vt_orderid : String) :
    List (String × CancelRequest) × List String :=
  match get_active_order s vt_orderid with
  | some active_order =>
    let req := active_order.create_cancel_request
    let calls :=
      match get_gateway s active_order.gateway_name with
      | some _ => [(active_order.gateway_name, req)]
      | none => []
    (calls,
      ["Cancel active order " ++ active_order.vt_orderid ++ " "
        ++ active_order.vt_symbol ++ " "
        ++ toString (active_order.volume - active_order.traded) ++ " "
        ++ active_order.direction.value ++ " " ++ active_order.offset.value])
  | none => ([], [])

/-- Translation of `MainEngine._process_order_event`: store the order under its
`vt_orderid`; if it is active, (re)insert it into the active-order index,
otherwise remove it from the index if present. -/
def process_order_event (s : MarketState) (order : OrderData) : MarketState :=
  let s' := { s with orders := aupsert order.vt_orderid order s.orders }
  if order.is_active then
    { s' with active_orders := aupsert order.vt_orderid order s'.active_orders }
  else if (alookup order.vt_orderid s'.active_orders).isSome then
    { s' with active_orders := aerase order.vt_orderid s'.active_orders }
  else
    s'

/-- The empty state cache at engine start. -/
def init_state : MarketState :=
  { ticks := [], contracts := [], positions := [], orders := [],
    active_orders := [], gateways := [] }

/-! ### Branch lemmas for `send_taker_order` -/

/-- Missing gateway: `_send_order` returns the empty identifier and emits no
log message. -/
lemma send_order_gateway_none (s : MarketState) (req : OrderRequest)
    (gateway_name : String) (hgw : get_gateway s gateway_name = none) :
    send_order s req gateway_name = ("", []) := by
  unfold send_order
  rw [hgw]

/-- Missing tick or contract: the router aborts with `[""]` and a log, and
submits nothing. -/
lemma taker_missing_data (s : MarketState) (vt_symbol gateway_name : String)
    (volume : ℚ) (direction : Direction) (offset : Offset)
    (h : get_tick s vt_symbol = none ∨ get_contract s vt_symbol = none) :
    send_taker_order s vt_symbol volume direction offset gateway_name =
      { reqs := [], vt_orderids := [""], logs := ["Tick or contract data is none"] } := by
  unfold send_taker_order
  rcases h with h | h
  · rw [h]
  · rw [h]
    rcases get_tick s vt_symbol with _ | t <;> rfl

/-- A non-close intent submits the single freshly built request. -/
lemma taker_not_close (s : MarketState) (vt_symbol gateway_name : String)
    (volume : ℚ) (direction : Direction) (offset : Offset)
    (tick : TickData) (contract : ContractData)
    (htick : get_tick s vt_symbol = some tick)
    (hcon : get_contract s vt_symbol = some contract)
    (hoff : offset ≠ Offset.CLOSE) :
    send_taker_order s vt_symbol volume direction offset gateway_name =
      submit_all s
        [{ symbol := contract.symbol, exchange := contract.exchange,
           price := taker_price tick contract direction, volume := volume,
           direction := direction, offset := offset, type := OrderType.LIMIT }]
        gateway_name := by
  unfold send_taker_order
  rw [htick, hcon]
  simp [hoff]

/-- Close intent with no opposing position: abort with `[""]` and a log. -/
lemma taker_no_position (s : MarketState) (vt_symbol gateway_name : String)
    (volume : ℚ) (direction : Direction)
    (tick : TickData) (contract : ContractData)
    (htick : get_tick s vt_symbol = some tick)
    (hcon : get_contract s vt_symbol = some contract)
    (hpos : get_position s (position_key gateway_name contract.vt_symbol direction) = none) :
    send_taker_order s vt_symbol volume direction Offset.CLOSE gateway_name =
      { reqs := [], vt_orderids := [""], logs := ["Position data is none"] } := by
  unfold send_taker_order
  rw [htick, hcon]
  simp [hpos]

/-- Close intent with insufficient available volume: abort with `[""]` and a
log, whatever the exchange. -/
lemma taker_insufficient (s : MarketState) (vt_symbol gateway_name : String)
    (volume : ℚ) (direction : Direction)
    (tick : TickData) (contract : ContractData) (p : PositionData)
    (htick : get_tick s vt_symbol = some tick)
    (hcon : get_contract s vt_symbol = some contract)
    (hpos : get_position s (position_key gateway_name contract.vt_symbol direction) = some p)
    (hins : p.volume - p.frozen < volume) :
    send_taker_order s vt_symbol volume direction Offset.CLOSE gateway_name =
      { reqs := [], vt_orderids := [""], logs := ["No enough close volume"] } := by
  unfold send_taker_order
  rw [htick, hcon]
  simp [hpos, hins]

/-- Aging exchange, no yesterday volume: one close-today leg, full volume. -/
lemma taker_aging_today (s : MarketState) (vt_symbol gateway_name : String)
    (volume : ℚ) (direction : Direction)
    (tick : TickData) (contract : ContractData) (p : PositionData)
    (htick : get_tick s vt_symbol = some tick)
    (hcon : get_contract s vt_symbol = some contract)
    (hpos : get_position s (position_key gateway_name contract.vt_symbol direction) = some p)
    (havail : ¬ p.volume - p.frozen < volume)
    (haging : contract.exchange = Exchange.SHFE ∨ contract.exchange = Exchange.INE)
    (hyd : p.yd_volume = 0) :
    send_taker_order s vt_symbol volume direction Offset.CLOSE gateway_name =
      submit_all s
        [{ symbol := contract.symbol, exchange := contract.exchange,
           price := taker_price tick contract direction, volume := volume,
           direction := direction, offset := Offset.CLOSETODAY, type := OrderType.LIMIT }]
        gateway_name := by
  unfold send_taker_order
  rw [htick, hcon]
  simp [hpos, havail, haging, hyd]

/-- Aging exchange, position fully aged (`volume == yd_volume`, nonzero):
one close-yesterday leg, full volume. -/
lemma taker_aging_yesterday (s : MarketState) (vt_symbol gateway_name : String)
    (volume : ℚ) (direction : Direction)
    (tick : TickData) (contract : ContractData) (p : PositionData)
    (htick : get_tick s vt_symbol = some tick)
    (hcon : get_contract s vt_symbol = some contract)
    (hpos : get_position s (position_key gateway_name contract.vt_symbol direction) = some p)
    (havail : ¬ p.volume - p.frozen < volume)
    (haging : contract.exchange = Exchange.SHFE ∨ contract.exchange = Exchange.INE)
    (hyd : p.yd_volume ≠ 0) (hvy : p.volume = p.yd_volume) :
    send_taker_order s vt_symbol volume direction Offset.CLOSE gateway_name =
      submit_all s
        [{ symbol := contract.symbol, exchange := contract.exchange,
           price := taker_price tick contract direction, volume := volume,
           direction := direction, offset := Offset.CLOSEYESTERDAY, type := OrderType.LIMIT }]
        gateway_name := by
  unfold send_taker_order
  rw [htick, hcon]
  have havail' : ¬ p.yd_volume - p.frozen < volume := by
    rw [← hvy]
    exact havail
  simp [hpos, havail', haging, hyd, hvy]

/-- Aging exchange, mixed aging: the close-today leg is placed first in the
request list, the close-yesterday leg second. -/
lemma taker_close_mixed (s : MarketState) (vt_symbol gateway_name : String)
    (volume : ℚ) (direction : Direction)
    (tick : TickData) (contract : ContractData) (p : PositionData)
    (htick : get_tick s vt_symbol = some tick)
    (hcon : get_contract s vt_symbol = some contract)
    (hpos : get_position s (position_key gateway_name contract.vt_symbol direction) = some p)
    (havail : ¬ p.volume - p.frozen < volume)
    (haging : contract.exchange = Exchange.SHFE ∨ contract.exchange = Exchange.INE)
    (hyd : p.yd_volume ≠ 0) (hvy : p.volume ≠ p.yd_volume) :
    send_taker_order s vt_symbol volume direction Offset.CLOSE gateway_name =
      submit_all s
        [{ symbol := contract.symbol, exchange := contract.exchange,
           price := taker_price tick contract direction,
           volume := volume - (p.yd_volume - p.frozen),
           direction := direction, offset := Offset.CLOSETODAY, type := OrderType.LIMIT },
         { symbol := contract.symbol, exchange := contract.exchange,
           price := taker_price tick contract direction,
           volume := p.yd_volume - p.frozen,
           direction := direction, offset := Offset.CLOSEYESTERDAY, type := OrderType.LIMIT }]
        gateway_name := by
  unfold send_taker_order
  rw [htick, hcon]
  simp [hpos, havail, haging, hyd, hvy]

/-- Non-aging exchange close: one plain-close leg with the requested
volume. -/
lemma taker_no_aging_close (s : MarketState) (vt_symbol gateway_name : String)
    (volume : ℚ) (direction : Direction)
    (tick : TickData) (contract : ContractData) (p : PositionData)
    (htick : get_tick s vt_symbol = some tick)
    (hcon : get_contract s vt_symbol = some contract)
    (hpos : get_position s (position_key gateway_name contract.vt_symbol direction) = some p)
    (havail : ¬ p.volume - p.frozen < volume)
    (haging : ¬ (contract.exchange = Exchange.SHFE ∨ contract.exchange = Exchange.INE)) :
    send_taker_order s vt_symbol volume direction Offset.CLOSE gateway_name =
      submit_all s
        [{ symbol := contract.symbol, exchange := contract.exchange,
           price := taker_price tick contract direction, volume := volume,
           direction := direction, offset := Offset.CLOSE, type := OrderType.LIMIT }]
        gateway_name := by
  unfold send_taker_order
  rw [htick, hcon]
  simp [hpos, havail, haging]

/-! ### Association-list lemmas and the active-order-index invariant -/

lemma alookup_aerase_self (k : String) (l : List (String × α)) :
    alookup k (aerase k l) = none := by
  induction l with
  | nil => rfl
  | cons hd tl ih =>
    rcases hd with ⟨k', v⟩
    by_cases h : k' = k
    · simpa [aerase, h] using ih
    · have h' : k ≠ k' := fun hk => h hk.symm
      simp [aerase, h, alookup, h', ih]

lemma alookup_aerase_ne (k k' : String) (l : List (String × α)) (hk : k ≠ k') :
    alookup k (aerase k' l) = alookup k l := by
  induction l with
  | nil => rfl
  | cons hd tl ih =>
    rcases hd with ⟨k₂, v⟩
    by_cases h : k₂ = k'
    · have h2 : k ≠ k₂ := fun hkk => hk (hkk.trans h)
      simp [aerase, h, alookup, h2, hk, ih]
    · by_cases h3 : k = k₂ <;> simp [aerase, h, alookup, h3, ih]

lemma alookup_aupsert_self (k : String) (v : α) (l : List (String × α)) :
    alookup k (aupsert k v l) = some v := by
  simp [aupsert, alookup]

lemma alookup_aupsert_ne (k k' : String) (v : α) (l : List (String × α))
    (hk : k ≠ k') :
    alookup k (aupsert k' v l) = alookup k l := by
  simp [aupsert, alookup, hk, alookup_aerase_ne k k' l hk]

/-- Consistency of the active-order index with the latest cached status:
an id is bound in `active_orders` exactly when its latest order is active,
and then to that same order. -/
def index_consistent (s : MarketState) : Prop :=
  ∀ id, alookup id s.active_orders =
    (alookup id s.orders).bind (fun o => if o.is_active then some o else none)

lemma index_consistent_init : index_consistent init_state := by
  intro id
  rfl

lemma index_consistent_step (s : MarketState) (o : OrderData)
    (h : index_consistent s) : index_consistent (process_order_event s o) := by
  intro id
  unfold process_order_event
  by_cases hid : id = o.vt_orderid
  · subst hid
    cases ha : o.is_active with
    | true =>
      simp [ha, alookup_aupsert_self]
    | false =>
      cases hmem : (alookup o.vt_orderid s.active_orders).isSome with
      | true =>
        simp [ha, hmem, alookup_aerase_self, alookup_aupsert_self]
      | false =>
        have hnone : alookup o.vt_orderid s.active_orders = none :=
          Option.not_isSome_iff_eq_none.mp (by simp [hmem])
        simp [ha, hmem, hnone, alookup_aupsert_self]
  · cases ha : o.is_active with
    | true =>
      simp [ha, alookup_aupsert_ne id o.vt_orderid _ _ hid, h id]
    | false =>
      cases hmem : (alookup o.vt_orderid s.active_orders).isSome with
      | true =>
        simp [ha, hmem, alookup_aupsert_ne id o.vt_orderid _ _ hid,
          alookup_aerase_ne id o.vt_orderid _ hid, h id]
      | false =>
        simp [ha, hmem, alookup_aupsert_ne id o.vt_orderid _ _ hid, h id]

lemma index_consistent_foldl (events : List OrderData) (s : MarketState)
    (h : index_consistent s) :
    index_consistent (events.foldl process_order_event s) := by
  induction events generalizing s with
  | nil => exact h
  | cons e tl ih => exact ih _ (index_consistent_step s e h)

/-- vnpy's active statuses are exactly the non-terminal ones. -/
lemma is_active_iff_not_terminal (o : OrderData) :
    o.is_active = true ↔
      ¬(o.status = Status.ALLTRADED ∨ o.status = Status.CANCELLED ∨
        o.status = Status.REJECTED) := by
  unfold OrderData.is_active
  cases o.status <;> simp

/-! ### Concrete fixtures -/

/-- A gateway whose `send_order` always returns the identifier `"ok"`. -/
def gw_const : Gateway := fun _ => "ok"

def con_shfe : ContractData :=
  { symbol := "X", exchange := Exchange.SHFE, pricetick := 1, vt_symbol := "X.SHFE" }

def con_dce : ContractData :=
  { symbol := "Y", exchange := Exchange.DCE, pricetick := 1, vt_symbol := "Y.DCE" }

/-- The spec's worked example: symbol `"X"`, tick size 1. -/
def con_x : ContractData :=
  { symbol := "X", exchange := Exchange.DCE, pricetick := 1, vt_symbol := "X" }

def tick_shfe : TickData :=
  { vt_symbol := "X.SHFE", bid_price_1 := 99, ask_price_1 := 101 }

def tick_dce : TickData :=
  { vt_symbol := "Y.DCE", bid_price_1 := 99, ask_price_1 := 101 }

def tick_x : TickData :=
  { vt_symbol := "X", bid_price_1 := 99, ask_price_1 := 101 }

def pos_mixed : PositionData :=
  { vt_positionid := "G1.X.SHFE.多", volume := 10, frozen := 0, yd_volume := 4 }

def pos_today : PositionData :=
  { vt_positionid := "G2.X.SHFE.多", volume := 10, frozen := 0, yd_volume := 0 }

def pos_yest : PositionData :=
  { vt_positionid := "G3.X.SHFE.多", volume := 10, frozen := 0, yd_volume := 10 }

def pos_dce : PositionData :=
  { vt_positionid := "G4.Y.DCE.多", volume := 10, frozen := 0, yd_volume := 0 }

def pos_c10 : PositionData :=
  { vt_positionid := "G5.X.SHFE.多", volume := 10, frozen := 0, yd_volume := 5 }

def pos_small : PositionData :=
  { vt_positionid := "G6.X.SHFE.多", volume := 5, frozen := 1, yd_volume := 0 }

/-- A populated state cache: one long position per scenario gateway. -/
def demo_state : MarketState :=
  { ticks := [("X.SHFE", tick_shfe), ("Y.DCE", tick_dce), ("X", tick_x)],
    contracts := [("X.SHFE", con_shfe), ("Y.DCE", con_dce), ("X", con_x)],
    positions := [("G1.X.SHFE.多", pos_mixed), ("G2.X.SHFE.多", pos_today),
      ("G3.X.SHFE.多", pos_yest), ("G4.Y.DCE.多", pos_dce),
      ("G5.X.SHFE.多", pos_c10), ("G6.X.SHFE.多", pos_small)],
    orders := [], active_orders := [],
    gateways := [("G1", gw_const), ("G2", gw_const), ("G3", gw_const),
      ("G4", gw_const), ("G5", gw_const), ("G6", gw_const)] }

/-- The same cache with no gateway registered. -/
def demo_state_no_gateway : MarketState :=
  { demo_state with gateways := [] }

def ord_active_fix : OrderData :=
  { gateway_name := "G1", symbol := "X", exchange := Exchange.SHFE, orderid := "7",
    direction := Direction.LONG, offset := Offset.OPEN, volume := 5, traded := 0,
    status := Status.NOTTRADED }

def ord_filled_fix : OrderData :=
  { ord_active_fix with traded := 5, status := Status.ALLTRADED }

/-- State holding one active order on a registered gateway. -/
def cancel_state : MarketState :=
  { init_state with
    active_orders := [("G1.7", ord_active_fix)],
    gateways := [("G1", gw_const)] }

/-! ### Claims -/

/-- C1 counterexample: on the mixed-aging close `sell demo_state "X.SHFE" 10 "G1"`
(position volume 10, frozen 0, yesterday 4) the first submitted request is the
close-today leg and the close-yesterday leg comes second, refuting the claimed
submission order (close-yesterday first). -/
theorem mixed_close_submission_order_cex :
    (sell demo_state "X.SHFE" 10 "G1").reqs.map OrderRequest.offset =
      [Offset.CLOSETODAY, Offset.CLOSEYESTERDAY] ∧
    (sell demo_state "X.SHFE" 10 "G1").reqs.map OrderRequest.offset ≠
      [Offset.CLOSEYESTERDAY, Offset.CLOSETODAY] := by
  have h := taker_close_mixed demo_state "X.SHFE" "G1" 10 Direction.SHORT
    tick_shfe con_shfe pos_mixed rfl rfl rfl
    (by norm_num [pos_mixed]) (Or.inl rfl)
    (by norm_num [pos_mixed]) (by norm_num [pos_mixed])
  rw [sell, h]
  constructor
  · simp [submit_all]
  · simp [submit_all]

/-- C1 (amended): for every close intent on an aging exchange with
`0 < yd_volume < volume` passing the availability check, exactly two requests
are produced, the close-yesterday leg sized `yd_volume − frozen` and the
close-today leg sized `requested − thatAmount`, the two volumes summing to the
requested volume; the close-yesterday request is built first in the code, but
the close-today leg is placed first in the request list and submitted first,
the close-yesterday leg second. -/
theorem mixed_close_two_legs_sum (s : MarketState) (vt_symbol gateway_name : String)
    (volume : ℚ) (direction : Direction)
    (tick : TickData) (contract : ContractData) (p : PositionData)
    (htick : get_tick s vt_symbol = some tick)
    (hcon : get_contract s vt_symbol = some contract)
    (hpos : get_position s (position_key gateway_name contract.vt_symbol direction) = some p)
    (havail : ¬ p.volume - p.frozen < volume)
    (haging : contract.exchange = Exchange.SHFE ∨ contract.exchange = Exchange.INE)
    (hyd0 : 0 < p.yd_volume) (hydlt : p.yd_volume < p.volume) :
    (send_taker_order s vt_symbol volume direction Offset.CLOSE gateway_name).reqs =
      [{ symbol := contract.symbol, exchange := contract.exchange,
         price := taker_price tick contract direction,
         volume := volume - (p.yd_volume - p.frozen),
         direction := direction, offset := Offset.CLOSETODAY, type := OrderType.LIMIT },
       { symbol := contract.symbol, exchange := contract.exchange,
         price := taker_price tick contract direction,
         volume := p.yd_volume - p.frozen,
         direction := direction, offset := Offset.CLOSEYESTERDAY, type := OrderType.LIMIT }] ∧
    (volume - (p.yd_volume - p.frozen)) + (p.yd_volume - p.frozen) = volume ∧
    (send_taker_order s vt_symbol volume direction Offset.CLOSE gateway_name).vt_orderids.length = 2 := by
  have h := taker_close_mixed s vt_symbol gateway_name volume direction
    tick contract p htick hcon hpos havail haging hyd0.ne' hydlt.ne'
  rw [h]
  refine ⟨rfl, by ring, ?_⟩
  simp [submit_all]

/-- C1 witness: the amended theorem at the concrete mixed-aging close
`sell demo_state "X.SHFE" 10 "G1"`: leg volumes 6 then 4, offsets close-today
then close-yesterday, summing to 10. -/
theorem mixed_close_two_legs_sum_witness :
    (sell demo_state "X.SHFE" 10 "G1").reqs.map OrderRequest.volume = [6, 4] ∧
    (sell demo_state "X.SHFE" 10 "G1").reqs.map OrderRequest.offset =
      [Offset.CLOSETODAY, Offset.CLOSEYESTERDAY] ∧
    (6 : ℚ) + 4 = 10 := by
  have h := mixed_close_two_legs_sum demo_state "X.SHFE" "G1" 10 Direction.SHORT
    tick_shfe con_shfe pos_mixed rfl rfl rfl
    (by norm_num [pos_mixed]) (Or.inl rfl)
    (by norm_num [pos_mixed]) (by norm_num [pos_mixed])
  rw [sell, h.1]
  refine ⟨?_, ?_, by norm_num⟩
  · simp [pos_mixed]
    norm_num
  · simp

/-- C2 counterexample: with quote and contract cached but no gateway
registered, `buy` returns the one-element sequence `[""]` and emits no log
message at all, refuting the claim that every trading-intent failure comes
with a logged message. -/
theorem gateway_not_found_no_log_cex :
    (buy demo_state_no_gateway "X.SHFE" 5 "G1").vt_orderids = [""] ∧
    (buy demo_state_no_gateway "X.SHFE" 5 "G1").logs = [] := by
  have h := taker_not_close demo_state_no_gateway "X.SHFE" "G1" 5
    Direction.LONG Offset.OPEN tick_shfe con_shfe rfl rfl (by simp)
  rw [buy, h]
  have hgw : get_gateway demo_state_no_gateway "G1" = none := rfl
  constructor
  · simp [submit_all, send_order, hgw]
  · simp [submit_all, send_order, hgw]

/-- C2 (amended): a trading intent whose target gateway is unregistered
resolves locally to the empty identifier in the result sequence — no
exception — but, unlike the pre-submission failures, emits no log message:
`_send_order` returns `""` silently. -/
theorem gateway_not_found_silent_empty_id (s : MarketState)
    (vt_symbol gateway_name : String) (volume : ℚ) (direction : Direction)
    (tick : TickData) (contract : ContractData)
    (htick : get_tick s vt_symbol = some tick)
    (hcon : get_contract s vt_symbol = some contract)
    (hgw : get_gateway s gateway_name = none) :
    (send_taker_order s vt_symbol volume direction Offset.OPEN gateway_name).vt_orderids = [""] ∧
    (send_taker_order s vt_symbol volume direction Offset.OPEN gateway_name).logs = [] := by
  have h := taker_not_close s vt_symbol gateway_name volume
    direction Offset.OPEN tick contract htick hcon (by simp)
  rw [h]
  constructor
  · simp [submit_all, send_order, hgw]
  · simp [submit_all, send_order, hgw]

/-- C2 witness: the amended theorem at the concrete state with no gateway
registered. -/
theorem gateway_not_found_silent_empty_id_witness :
    (send_taker_order demo_state_no_gateway "X.SHFE" 5 Direction.LONG
      Offset.OPEN "G1").vt_orderids = [""] ∧
    (send_taker_order demo_state_no_gateway "X.SHFE" 5 Direction.LONG
      Offset.OPEN "G1").logs = [] :=
  gateway_not_found_silent_empty_id demo_state_no_gateway "X.SHFE" "G1" 5
    Direction.LONG tick_shfe con_shfe rfl rfl rfl

/-- C3: a trading intent on a symbol with no cached tick or no cached
contract returns exactly `[""]`, logs the missing-market-data message, and
passes no request to `_send_order`. -/
theorem missing_market_data_aborts (s : MarketState)
    (vt_symbol gateway_name : String) (volume : ℚ)
    (direction : Direction) (offset : Offset)
    (h : get_tick s vt_symbol = none ∨ get_contract s vt_symbol = none) :
    send_taker_order s vt_symbol volume direction offset gateway_name =
      { reqs := [], vt_orderids := [""], logs := ["Tick or contract data is none"] } :=
  taker_missing_data s vt_symbol gateway_name volume direction offset h

/-- C3 witness: the theorem at the empty cache, for each of the four public
intents' direction/offset pairs. -/
theorem missing_market_data_aborts_witness :
    buy init_state "X" 1 "G1" =
      { reqs := [], vt_orderids := [""], logs := ["Tick or contract data is none"] } ∧
    sell init_state "X" 1 "G1" =
      { reqs := [], vt_orderids := [""], logs := ["Tick or contract data is none"] } := by
  constructor
  · exact missing_market_data_aborts init_state "X" "G1" 1
      Direction.LONG Offset.OPEN (Or.inl rfl)
  · exact missing_market_data_aborts init_state "X" "G1" 1
      Direction.SHORT Offset.CLOSE (Or.inl rfl)

/-- C4: a close intent whose opposing position has `volume − frozen` strictly
below the requested volume returns `[""]`, logs the insufficient-volume
message, and passes no request to `_send_order`, with no constraint on the
exchange (the check precedes the aging logic). -/
theorem insufficient_close_volume_aborts (s : MarketState)
    (vt_symbol gateway_name : String) (volume : ℚ) (direction : Direction)
    (tick : TickData) (contract : ContractData) (p : PositionData)
    (htick : get_tick s vt_symbol = some tick)
    (hcon : get_contract s vt_symbol = some contract)
    (hpos : get_position s (position_key gateway_name contract.vt_symbol direction) = some p)
    (hins : p.volume - p.frozen < volume) :
    send_taker_order s vt_symbol volume direction Offset.CLOSE gateway_name =
      { reqs := [], vt_orderids := [""], logs := ["No enough close volume"] } :=
  taker_insufficient s vt_symbol gateway_name volume direction
    tick contract p htick hcon hpos hins

/-- C4 witness: the theorem at the concrete position with volume 5, frozen 1
(available 4) and requested close volume 5. -/
theorem insufficient_close_volume_aborts_witness :
    sell demo_state "X.SHFE" 5 "G6" =
      { reqs := [], vt_orderids := [""], logs := ["No enough close volume"] } :=
  insufficient_close_volume_aborts demo_state "X.SHFE" "G6" 5 Direction.SHORT
    tick_shfe con_shfe pos_small rfl rfl rfl (by norm_num [pos_small])

/-- C5: on an aging exchange, past the position and availability checks and
with positive requested volume and nonnegative frozen volume: a position with
no yesterday volume yields exactly one close-today request at the full
requested volume, and a fully aged position (`volume == yd_volume`) yields
exactly one close-yesterday request at the full requested volume. -/
theorem aging_close_single_leg (s : MarketState) (vt_symbol gateway_name : String)
    (volume : ℚ) (direction : Direction)
    (tick : TickData) (contract : ContractData) (p : PositionData)
    (htick : get_tick s vt_symbol = some tick)
    (hcon : get_contract s vt_symbol = some contract)
    (hpos : get_position s (position_key gateway_name contract.vt_symbol direction) = some p)
    (havail : ¬ p.volume - p.frozen < volume)
    (haging : contract.exchange = Exchange.SHFE ∨ contract.exchange = Exchange.INE)
    (hvol : 0 < volume) (hfz : 0 ≤ p.frozen) :
    (p.yd_volume = 0 →
      (send_taker_order s vt_symbol volume direction Offset.CLOSE gateway_name).reqs =
        [{ symbol := contract.symbol, exchange := contract.exchange,
           price := taker_price tick contract direction, volume := volume,
           direction := direction, offset := Offset.CLOSETODAY, type := OrderType.LIMIT }] ∧
      (send_taker_order s vt_symbol volume direction Offset.CLOSE gateway_name).vt_orderids.length = 1) ∧
    (p.volume = p.yd_volume →
      (send_taker_order s vt_symbol volume direction Offset.CLOSE gateway_name).reqs =
        [{ symbol := contract.symbol, exchange := contract.exchange,
           price := taker_price tick contract direction, volume := volume,
           direction := direction, offset := Offset.CLOSEYESTERDAY, type := OrderType.LIMIT }] ∧
      (send_taker_order s vt_symbol volume direction Offset.CLOSE gateway_name).vt_orderids.length = 1) := by
  constructor
  · intro hyd
    rw [taker_aging_today s vt_symbol gateway_name volume direction
      tick contract p htick hcon hpos havail haging hyd]
    exact ⟨rfl, by simp [submit_all]⟩
  · intro hvy
    have hv0 : 0 < p.volume := by
      have := not_lt.mp havail
      linarith
    have hydne : p.yd_volume ≠ 0 := by
      rw [← hvy]
      exact hv0.ne'
    rw [taker_aging_yesterday s vt_symbol gateway_name volume direction
      tick contract p htick hcon hpos havail haging hydne hvy]
    exact ⟨rfl, by simp [submit_all]⟩

/-- C5 witness: the theorem at the concrete positions with yesterday volume 0
(gateway G2) and with volume = yesterday volume = 10 (gateway G3), requested
close volume 3 each. -/
theorem aging_close_single_leg_witness :
    (sell demo_state "X.SHFE" 3 "G2").reqs.map
      (fun r => (r.offset, r.volume)) = [(Offset.CLOSETODAY, (3 : ℚ))] ∧
    (sell demo_state "X.SHFE" 3 "G3").reqs.map
      (fun r => (r.offset, r.volume)) = [(Offset.CLOSEYESTERDAY, (3 : ℚ))] := by
  have h2 := (aging_close_single_leg demo_state "X.SHFE" "G2" 3 Direction.SHORT
    tick_shfe con_shfe pos_today rfl rfl rfl
    (by norm_num [pos_today]) (Or.inl rfl) (by norm_num) (by norm_num [pos_today])).1 rfl
  have h3 := (aging_close_single_leg demo_state "X.SHFE" "G3" 3 Direction.SHORT
    tick_shfe con_shfe pos_yest rfl rfl rfl
    (by norm_num [pos_yest]) (Or.inl rfl) (by norm_num) (by norm_num [pos_yest])).2 rfl
  constructor
  · rw [sell, h2.1]
    simp
  · rw [sell, h3.1]
    simp

/-- C6: a close intent on a non-aging exchange whose opposing position exists
with sufficient available volume submits exactly one request with the plain
close offset and the full requested volume — no split. -/
theorem no_aging_close_single_leg (s : MarketState) (vt_symbol gateway_name : String)
    (volume : ℚ) (direction : Direction)
    (tick : TickData) (contract : ContractData) (p : PositionData)
    (htick : get_tick s vt_symbol = some tick)
    (hcon : get_contract s vt_symbol = some contract)
    (hpos : get_position s (position_key gateway_name contract.vt_symbol direction) = some p)
    (havail : ¬ p.volume - p.frozen < volume)
    (haging : ¬ (contract.exchange = Exchange.SHFE ∨ contract.exchange = Exchange.INE)) :
    (send_taker_order s vt_symbol volume direction Offset.CLOSE gateway_name).reqs =
      [{ symbol := contract.symbol, exchange := contract.exchange,
         price := taker_price tick contract direction, volume := volume,
         direction := direction, offset := Offset.CLOSE, type := OrderType.LIMIT }] ∧
    (send_taker_order s vt_symbol volume direction Offset.CLOSE gateway_name).vt_orderids.length = 1 := by
  rw [taker_no_aging_close s vt_symbol gateway_name volume direction
    tick contract p htick hcon hpos havail haging]
  exact ⟨rfl, by simp [submit_all]⟩

/-- C6 witness: the theorem at the concrete DCE position (no aging), close
volume 3 of an available 10. -/
theorem no_aging_close_single_leg_witness :
    (sell demo_state "Y.DCE" 3 "G4").reqs.map
      (fun r => (r.offset, r.volume)) = [(Offset.CLOSE, (3 : ℚ))] := by
  have h := no_aging_close_single_leg demo_state "Y.DCE" "G4" 3 Direction.SHORT
    tick_dce con_dce pos_dce rfl rfl rfl
    (by norm_num [pos_dce]) (by simp [con_dce])
  rw [sell, h.1]
  simp

/-- Every request the router submits carries the marketable limit price
computed from the tick and the contract. -/
lemma taker_reqs_price (s : MarketState) (vt_symbol gateway_name : String)
    (volume : ℚ) (direction : Direction) (offset : Offset)
    (tick : TickData) (contract : ContractData)
    (htick : get_tick s vt_symbol = some tick)
    (hcon : get_contract s vt_symbol = some contract) :
    ∀ r ∈ (send_taker_order s vt_symbol volume direction offset gateway_name).reqs,
      r.price = taker_price tick contract direction := by
  unfold send_taker_order
  rw [htick, hcon]
  by_cases ho : offset = Offset.CLOSE
  · subst ho
    simp only [if_pos rfl]
    cases hp : get_position s (position_key gateway_name contract.vt_symbol direction) with
    | none => simp
    | some p =>
      intro r hr
      by_cases h1 : p.volume - p.frozen < volume
      · simp [h1] at hr
      · by_cases h2 : contract.exchange = Exchange.SHFE ∨ contract.exchange = Exchange.INE
        · by_cases h3 : p.yd_volume = 0
          · simp [h1, h2, h3, submit_all] at hr
            subst hr
            rfl
          · by_cases h4 : p.volume = p.yd_volume
            · have h1' : ¬ p.yd_volume - p.frozen < volume := by
                rw [← h4]
                exact h1
              simp [h1, h1', h2, h3, h4, submit_all] at hr
              subst hr
              rfl
            · simp [h1, h2, h3, h4, submit_all] at hr
              rcases hr with rfl | rfl <;> rfl
        · simp [h1, h2, submit_all] at hr
          subst hr
          rfl
  · simp [ho, submit_all]

/-- C7: with cached tick and contract, every submitted request is priced
ask + 2×tick for a long (buy/cover) order and bid − 2×tick for a short
(sell/short) order; an open intent submits exactly that one request at the
requested volume. -/
theorem taker_limit_price_rule (s : MarketState) (vt_symbol gateway_name : String)
    (volume : ℚ) (direction : Direction) (offset : Offset)
    (tick : TickData) (contract : ContractData)
    (htick : get_tick s vt_symbol = some tick)
    (hcon : get_contract s vt_symbol = some contract) :
    (∀ r ∈ (send_taker_order s vt_symbol volume direction offset gateway_name).reqs,
      (direction = Direction.LONG →
        r.price = tick.ask_price_1 + contract.pricetick * 2) ∧
      (direction = Direction.SHORT →
        r.price = tick.bid_price_1 - contract.pricetick * 2)) ∧
    (offset = Offset.OPEN →
      (send_taker_order s vt_symbol volume direction offset gateway_name).reqs =
        [{ symbol := contract.symbol, exchange := contract.exchange,
           price := taker_price tick contract direction, volume := volume,
           direction := direction, offset := Offset.OPEN, type := OrderType.LIMIT }]) := by
  constructor
  · intro r hr
    have hp := taker_reqs_price s vt_symbol gateway_name volume direction offset
      tick contract htick hcon r hr
    constructor
    · intro hd
      rw [hp, hd]
      rfl
    · intro hd
      rw [hp, hd]
      rfl
  · intro ho
    subst ho
    rw [taker_not_close s vt_symbol gateway_name volume direction Offset.OPEN
      tick contract htick hcon (by simp)]
    rfl

/-- C7 witness: the spec's worked example — gateway G1, symbol X, tick size 1,
best bid/ask 99/101; an open-long of volume 5 submits one request priced 103,
volume 5, direction long, offset open. -/
theorem taker_limit_price_rule_witness :
    (buy demo_state "X" 5 "G1").reqs.map
      (fun r => (r.price, r.volume, r.direction, r.offset)) =
      [((103 : ℚ), (5 : ℚ), Direction.LONG, Offset.OPEN)] := by
  have h := taker_limit_price_rule demo_state "X" "G1" 5 Direction.LONG Offset.OPEN
    tick_x con_x rfl rfl
  rw [buy, h.2 rfl]
  simp [taker_price, tick_x, con_x]
  norm_num

/-- C8: `cancel_active_order` on an id absent from the active-order index is
a silent no-op (no gateway call, no log, no error); on a present id it builds
the cancel request from the order's own orderid/symbol/exchange and submits
it via the order's own gateway. -/
theorem cancel_active_order_spec (s : MarketState) (vt_orderid : String) :
    (get_active_order s vt_orderid = none →
      cancel_active_order s vt_orderid = ([], [])) ∧
    (∀ o gw, get_active_order s vt_orderid = some o →
      get_gateway s o.gateway_name = some gw →
      (cancel_active_order s vt_orderid).1 =
        [(o.gateway_name,
          { orderid := o.orderid, symbol := o.symbol, exchange := o.exchange })]) := by
  constructor
  · intro h
    unfold cancel_active_order
    rw [h]
  · intro o gw h hgw
    unfold cancel_active_order
    rw [h]
    simp [hgw, OrderData.create_cancel_request]

/-- C8 witness: the theorem at the concrete state holding one active order
`"G1.7"` on registered gateway G1 — cancelling an unknown id does nothing,
cancelling `"G1.7"` issues exactly the cancel call built from the order. -/
theorem cancel_active_order_spec_witness :
    cancel_active_order cancel_state "nope" = ([], []) ∧
    (cancel_active_order cancel_state "G1.7").1 =
      [("G1", { orderid := "7", symbol := "X", exchange := Exchange.SHFE })] := by
  constructor
  · exact (cancel_active_order_spec cancel_state "nope").1 rfl
  · have h := (cancel_active_order_spec cancel_state "G1.7").2
      ord_active_fix gw_const rfl rfl
    simpa [ord_active_fix] using h

/-- C9: after any sequence of order-update events processed from the initial
state, the active-order index binds an id exactly when the most recently
processed order for that id is active, and to that same order; membership is
equivalent to the latest status lying outside the terminal set
{ALLTRADED (filled), CANCELLED, REJECTED}. -/
theorem active_index_matches_status (events : List OrderData) (id : String) :
    alookup id (events.foldl process_order_event init_state).active_orders =
      (alookup id (events.foldl process_order_event init_state).orders).bind
        (fun o => if o.is_active then some o else none) ∧
    ((alookup id (events.foldl process_order_event init_state).active_orders).isSome = true ↔
      ∃ o, alookup id (events.foldl process_order_event init_state).orders = some o ∧
        ¬(o.status = Status.ALLTRADED ∨ o.status = Status.CANCELLED ∨
          o.status = Status.REJECTED)) := by
  have h := index_consistent_foldl events init_state index_consistent_init id
  refine ⟨h, ?_⟩
  rw [h]
  cases ho : alookup id (events.foldl process_order_event init_state).orders with
  | none => simp
  | some o =>
    cases hact : o.is_active with
    | true =>
      simp only [Option.some_bind, hact, if_pos]
      have hnt := (is_active_iff_not_terminal o).mp hact
      simp
      tauto
    | false =>
      have hterm : o.status = Status.ALLTRADED ∨ o.status = Status.CANCELLED ∨
          o.status = Status.REJECTED := by
        by_contra hnt
        have := (is_active_iff_not_terminal o).mpr hnt
        rw [hact] at this
        exact Bool.false_ne_true this
      simp [hact]
      tauto

/-- C9 witness: the theorem's consistency equation at the concrete two-event
history submit-then-fill of order `"G1.7"`, where the index ends empty while
the order registry holds the filled order. -/
theorem active_index_matches_status_witness :
    (alookup "G1.7"
        (([ord_active_fix, ord_filled_fix] : List OrderData).foldl
          process_order_event init_state).active_orders =
      (alookup "G1.7"
          (([ord_active_fix, ord_filled_fix] : List OrderData).foldl
            process_order_event init_state).orders).bind
        (fun o => if o.is_active then some o else none)) ∧
    alookup "G1.7"
        (([ord_active_fix, ord_filled_fix] : List OrderData).foldl
          process_order_event init_state).active_orders = none ∧
    alookup "G1.7"
        (([ord_active_fix, ord_filled_fix] : List OrderData).foldl
          process_order_event init_state).orders = some ord_filled_fix := by
  refine ⟨(active_index_matches_status [ord_active_fix, ord_filled_fix] "G1.7").1, ?_, ?_⟩
  · rfl
  · rfl

/-- C10: for a mixed-aging close through the public `sell` interface that
passes the availability check, the close-yesterday leg volume is
`yd_volume − frozen` regardless of the requested volume, so whenever
`yd_volume − frozen` exceeds the requested volume the close-today leg is
built with a strictly negative volume — nothing prevents it. -/
theorem mixed_close_negative_today_leg (s : MarketState)
    (vt_symbol gateway_name : String) (volume : ℚ)
    (tick : TickData) (contract : ContractData) (p : PositionData)
    (htick : get_tick s vt_symbol = some tick)
    (hcon : get_contract s vt_symbol = some contract)
    (hpos : get_position s
      (position_key gateway_name contract.vt_symbol Direction.SHORT) = some p)
    (havail : ¬ p.volume - p.frozen < volume)
    (haging : contract.exchange = Exchange.SHFE ∨ contract.exchange = Exchange.INE)
    (hyd0 : 0 < p.yd_volume) (hydlt : p.yd_volume < p.volume)
    (hbig : volume < p.yd_volume - p.frozen) :
    (sell s vt_symbol volume gateway_name).reqs.map OrderRequest.volume =
      [volume - (p.yd_volume - p.frozen), p.yd_volume - p.frozen] ∧
    volume - (p.yd_volume - p.frozen) < 0 := by
  have h := taker_close_mixed s vt_symbol gateway_name volume Direction.SHORT
    tick contract p htick hcon hpos havail haging hyd0.ne' hydlt.ne'
  rw [sell, h]
  constructor
  · simp [submit_all]
  · linarith

/-- C10 witness: the theorem at the concrete position with volume 10,
frozen 0, yesterday 5 and a requested close of 2 — the close-today leg is
built with volume −3. -/
theorem mixed_close_negative_today_leg_witness :
    (sell demo_state "X.SHFE" 2 "G5").reqs.map OrderRequest.volume =
      [(-3 : ℚ), 5] ∧ (-3 : ℚ) < 0 := by
  have h := mixed_close_negative_today_leg demo_state "X.SHFE" "G5" 2
    tick_shfe con_shfe pos_c10 rfl rfl rfl
    (by norm_num [pos_c10]) (Or.inl rfl)
    (by norm_num [pos_c10]) (by norm_num [pos_c10]) (by norm_num [pos_c10])
  refine ⟨?_, by norm_num⟩
  rw [h.1]
  norm_num [pos_c10]

end MultiAccountTrade
